import Mathlib

/-!
# Bluetooth phone mouse driver (`src/driver/phone_mouse_bt.c`)

A shallow embedding of the driver's frame handling, receive loop, and module load and unload.

* Machine integers are `Int`/`Nat`; C `int` arithmetic that can leave the 32-bit range is
  wrapped with `wrap_s32`, and a store into an `s16` variable is `wrap_s16` (kernel code is
  compiled with wrapping signed overflow, and a narrowing conversion keeps the low bits).
* The input device `pm_input_dev` is the list of calls made on it, oldest first.
* The socket layer is the list of calls made on it (`SockOp`), oldest first; what the kernel
  answers to each call of one loop iteration is an `IterEnv`.
* `pm_init` and `pm_exit` record the calls they make (`ModOp`), oldest first; what the kernel
  answers to the calls of `pm_init` is an `InitEnv`.
-/

namespace PhoneMouse

/-! ## Machine integers -/

/-- Value of an integer once stored in a C `int` (32-bit two's complement). -/
def wrap_s32 (x : Int) : Int := (x + 2147483648) % 4294967296 - 2147483648

/-- Value of an integer once stored in an `s16` (16-bit two's complement). -/
def wrap_s16 (x : Int) : Int := (x + 32768) % 65536 - 32768

/-! ## The input device -/

/-- Key codes the driver reports. -/
inductive KeyCode where
  | BTN_LEFT
  | BTN_RIGHT
  deriving DecidableEq, Repr

/-- Relative axes the driver reports. -/
inductive RelCode where
  | REL_X
  | REL_Y
  deriving DecidableEq, Repr

/-- One call on the input device. -/
inductive InputEvent where
  | key (code : KeyCode) (value : Int)
  | rel (code : RelCode) (value : Int)
  | sync
  deriving DecidableEq, Repr

/-- The input device: every call made on it so far, oldest first. -/
abbrev InputDev := List InputEvent

/-- Call `input_report_key(dev, code, value)`. -/
def input_report_key (dev : InputDev) (code : KeyCode) (value : Int) : InputDev :=
  dev ++ [InputEvent.key code value]

/-- Call `input_report_rel(dev, code, value)`. -/
def input_report_rel (dev : InputDev) (code : RelCode) (value : Int) : InputDev :=
  dev ++ [InputEvent.rel code value]

/-- Call `input_sync(dev)`. -/
def input_sync (dev : InputDev) : InputDev :=
  dev ++ [InputEvent.sync]

/-! ## Module globals -/

/-- The module globals read while frames are handled: `speed_mult` (set by `pm_init`) and the
module parameter `interp_steps`. -/
structure Globals where
  speed_mult : Int
  interp_steps : Int
  deriving DecidableEq, Repr

/-- Line 138 of `pm_init`: `speed_mult = (speed_pct * 65536) / 100;` in `int` arithmetic
(C division truncates toward zero). -/
def pm_init_speed_mult (speed_pct : Int) : Int :=
  Int.tdiv (wrap_s32 (speed_pct * 65536)) 100

/-! ## Buttons (lines 36-52) -/

def LMB_MASK : Nat := 0b00000001

def RMB_MASK : Nat := 0b00000010

/-- Function `handle_buttons(u8 buttons)`. -/
def handle_buttons (dev : InputDev) (buttons : Nat) : InputDev :=
  let dev :=
    if buttons &&& LMB_MASK ≠ 0 then
      let dev := input_report_key dev KeyCode.BTN_LEFT 1
      let dev := input_sync dev
      let dev := input_report_key dev KeyCode.BTN_LEFT 0
      input_sync dev
    else dev
  if buttons &&& RMB_MASK ≠ 0 then
    let dev := input_report_key dev KeyCode.BTN_RIGHT 1
    let dev := input_sync dev
    let dev := input_report_key dev KeyCode.BTN_RIGHT 0
    input_sync dev
  else dev

/-! ## Movement (lines 54-79) -/

/-- Lines 55-56: `(s16)((hi << 8) | lo)` for two bytes of the buffer. -/
def decode_s16 (hi lo : Nat) : Int :=
  wrap_s16 (Int.ofNat ((hi <<< 8) ||| lo))

/-- Lines 58-59: `d = (d * speed_mult) >> 16;` where `d` is an `s16`: the product and the
arithmetic shift are computed in `int`, the result is stored back into the `s16`. -/
def scale (speed_mult : Int) (d : Int) : Int :=
  wrap_s16 (wrap_s32 (d * speed_mult) >>> 16)

/-- Lines 66-70: the loop `for (i = 0; i < interp_steps; i++)`, entered with the current `i`. -/
def rel_loop (interp_steps step_dx step_dy : Int) (i : Int) (dev : InputDev) : InputDev :=
  if i < interp_steps then
    let dev := input_report_rel dev RelCode.REL_X step_dx
    let dev := input_report_rel dev RelCode.REL_Y step_dy
    let dev := input_sync dev
    rel_loop interp_steps step_dx step_dy (i + 1) dev
  else dev
termination_by (interp_steps - i).toNat
decreasing_by omega

/-- Lines 61-78: what `handle_movement` does with the scaled deltas `dx`, `dy`. -/
def emit_motion (interp_steps : Int) (dev : InputDev) (dx dy : Int) : InputDev :=
  if interp_steps > 0 then
    let step_dx := Int.tdiv dx interp_steps
    let step_dy := Int.tdiv dy interp_steps
    rel_loop interp_steps step_dx step_dy 0 dev
  else
    let dev := input_report_rel dev RelCode.REL_X dx
    let dev := input_report_rel dev RelCode.REL_Y dy
    input_sync dev

/-- Function `handle_movement(u8 buf[4])`, the four bytes passed one by one. -/
def handle_movement (g : Globals) (dev : InputDev) (b0 b1 b2 b3 : Nat) : InputDev :=
  let dx := decode_s16 b0 b1
  let dy := decode_s16 b2 b3
  let dx := scale g.speed_mult dx
  let dy := scale g.speed_mult dy
  emit_motion g.interp_steps dev dx dy

/-! ## The receive loop (lines 81-126) -/

/-- One call on the socket layer or a sleep, as made by `rx_loop`. -/
inductive SockOp where
  /-- Call `kernel_accept(listen_sock, &new_sock, 0)` that returned `r` and set `new_sock`. -/
  | accept (r : Int) (new_sock : Nat)
  /-- Call `kernel_recvmsg(sock, ...)` that returned `len`. -/
  | recvmsg (sock : Nat) (len : Int)
  /-- Call `sock_release(sock)`. -/
  | release (sock : Nat)
  /-- Call `ssleep(secs)`. -/
  | ssleep (secs : Nat)
  /-- Call `msleep(ms)`. -/
  | msleep (ms : Nat)
  deriving DecidableEq, Repr

/-- What the kernel answers during one loop iteration: the result of `kernel_accept` (asked only
when there is no client) and the result of `kernel_recvmsg` with the bytes it wrote at the start
of `buf` (asked only when there is a client). -/
structure IterEnv where
  accept_r : Int
  new_sock : Nat
  recv_len : Int
  recv_data : List Nat
  deriving DecidableEq, Repr

/-- The state `rx_loop` works on: the global `client_sock` (`none` is `NULL`), the local `buf`,
the input device and the calls made on the socket layer so far. -/
structure RxState where
  client_sock : Option Nat
  buf : List Nat
  dev : InputDev
  log : List SockOp
  deriving DecidableEq, Repr

/-- The buffer after `kernel_recvmsg` wrote `data` at its start. -/
def recv_fill (buf data : List Nat) : List Nat :=
  data ++ buf.drop data.length

/-- Lines 120-122: `handle_buttons(buf[0]); handle_movement(&buf[1]);`. -/
def process_frame (g : Globals) (dev : InputDev) (buf : List Nat) : InputDev :=
  let dev := handle_buttons dev (buf.getD 0 0)
  handle_movement g dev (buf.getD 1 0) (buf.getD 2 0) (buf.getD 3 0) (buf.getD 4 0)

/-- Lines 88-99: with no client, try to accept one; on failure sleep one second. The iteration
goes on to the read exactly when `client_sock` is set afterwards (otherwise it is the `continue`
of line 97). -/
def rx_accept (st : RxState) (env : IterEnv) : RxState :=
  match st.client_sock with
  | some _ => st
  | none =>
    let st := { st with log := st.log ++ [SockOp.accept env.accept_r env.new_sock] }
    if env.accept_r = 0 then
      { st with client_sock := some env.new_sock }
    else
      { st with log := st.log ++ [SockOp.ssleep 1] }

/-- Lines 101-122: read from the client socket `sock` and act on the result. `EAGAIN` is the
errno constant of the kernel headers. -/
def rx_recv (EAGAIN : Int) (g : Globals) (st : RxState) (sock : Nat) (env : IterEnv) : RxState :=
  let len := env.recv_len
  let st := { st with buf := recv_fill st.buf env.recv_data,
                      log := st.log ++ [SockOp.recvmsg sock len] }
  if len = -EAGAIN then
    { st with log := st.log ++ [SockOp.msleep 5] }
  else if len ≤ 0 then
    { st with client_sock := none, log := st.log ++ [SockOp.release sock] }
  else if len < 5 then
    st
  else
    { st with dev := process_frame g st.dev st.buf }

/-- One iteration of the `while` loop of `rx_loop` (lines 88-122). -/
def rx_iteration (EAGAIN : Int) (g : Globals) (st : RxState) (env : IterEnv) : RxState :=
  let st := rx_accept st env
  match st.client_sock with
  | none => st
  | some sock => rx_recv EAGAIN g st sock env

/-- The loop of `rx_loop`: one iteration per element of `envs`, after which
`kthread_should_stop()` is true. -/
def rx_loop (EAGAIN : Int) (g : Globals) (st : RxState) (envs : List IterEnv) : RxState :=
  envs.foldl (rx_iteration EAGAIN g) st

/-! ## Event sequences used in the statements -/

/-- The events of one button pulse. -/
def pulse (code : KeyCode) : List InputEvent :=
  [InputEvent.key code 1, InputEvent.sync, InputEvent.key code 0, InputEvent.sync]

/-- The events of one interpolation step. -/
def rel_step (step_dx step_dy : Int) : List InputEvent :=
  [InputEvent.rel RelCode.REL_X step_dx, InputEvent.rel RelCode.REL_Y step_dy, InputEvent.sync]

/-! ## Bookkeeping on the socket calls -/

/-- The handles accepted and not yet released, after one more call. -/
def live_step (live : List Nat) : SockOp → List Nat
  | SockOp.accept r s => if r = 0 then s :: live else live
  | SockOp.release s => live.erase s
  | _ => live

/-- The handles accepted and not yet released after the calls `log`, starting from `live`. -/
def live_handles (live : List Nat) (log : List SockOp) : List Nat :=
  log.foldl live_step live

/-- Whether a call is made in order when `live` are the handles accepted and not yet released:
an accept with no such handle, a read or a release on the one such handle. -/
def op_allowed (live : List Nat) : SockOp → Prop
  | SockOp.accept _ _ => live = []
  | SockOp.recvmsg s _ => live = [s]
  | SockOp.release s => live = [s]
  | _ => True

/-- Every call of `log` is made in order and at most one handle is live before each of
them, starting from `live`. -/
def trace_ok : List Nat → List SockOp → Prop
  | _, [] => True
  | live, op :: ops => op_allowed live op ∧ live.length ≤ 1 ∧ trace_ok (live_step live op) ops

instance op_allowed_decidable (live : List Nat) (op : SockOp) :
    Decidable (op_allowed live op) :=
  match op with
  | SockOp.accept _ _ => inferInstanceAs (Decidable (live = []))
  | SockOp.recvmsg s _ => inferInstanceAs (Decidable (live = [s]))
  | SockOp.release s => inferInstanceAs (Decidable (live = [s]))
  | SockOp.ssleep _ => isTrue trivial
  | SockOp.msleep _ => isTrue trivial

instance trace_ok_decidable : (live : List Nat) → (log : List SockOp) →
    Decidable (trace_ok live log)
  | _, [] => isTrue trivial
  | live, op :: ops =>
    have := trace_ok_decidable (live_step live op) ops
    inferInstanceAs (Decidable (op_allowed live op ∧ live.length ≤ 1 ∧
      trace_ok (live_step live op) ops))

/-- What holds of the state after any number of loop iterations started with the calls `base`
already made and the handles `live0` held: the calls made since are in order and the handles
accepted and not yet released are exactly the client socket, if any. -/
def LoopInv (base : List SockOp) (live0 : List Nat) (st : RxState) : Prop :=
  ∃ new, st.log = base ++ new ∧ trace_ok live0 new ∧
    live_handles live0 new = st.client_sock.toList

/-! ## Module load and unload (lines 128-213) -/

/-- What `rx_thread` holds: `NULL`, a started task, or the `ERR_PTR` of a failed
`kthread_run`. -/
inductive TaskPtr where
  | null
  | task (t : Nat)
  | err (e : Int)
  deriving DecidableEq, Repr

/-- One call made by `pm_init` or `pm_exit` on the kernel, with what it returned. -/
inductive ModOp where
  /-- Call `input_allocate_device()`; `none` is a `NULL` result. -/
  | input_allocate_device (res : Option Nat)
  /-- Call `input_register_device(pm_input_dev)` that returned `err`. -/
  | input_register_device (err : Int)
  /-- Call `sock_create_kern(..., &listen_sock)` that returned `err` (and the socket `sock`
  when it succeeded). -/
  | sock_create_kern (err : Int) (sock : Nat)
  /-- Call `listen_sock->ops->bind(...)` that returned `err`. -/
  | bind (err : Int)
  /-- Call `listen_sock->ops->listen(listen_sock, 1)` that returned `err`. -/
  | listen (err : Int)
  /-- Call `kthread_run(rx_loop, ...)` with its result. -/
  | kthread_run (res : TaskPtr)
  /-- Call `kthread_stop(rx_thread)`. -/
  | kthread_stop (t : TaskPtr)
  /-- Call `sock_release(sock)`. -/
  | sock_release (sock : Nat)
  /-- Call `input_unregister_device(pm_input_dev)`. -/
  | input_unregister_device
  deriving DecidableEq, Repr

/-- What the kernel answers to the calls of `pm_init`. -/
structure InitEnv where
  input_dev : Option Nat
  register_err : Int
  sock_create_err : Int
  new_listen_sock : Nat
  bind_err : Int
  listen_err : Int
  thread : TaskPtr
  deriving DecidableEq, Repr

/-- The module's static variables (lines 26-34) and the calls made by `pm_init` and `pm_exit`
so far. -/
structure ModState where
  speed_mult : Int
  pm_input_dev : Option Nat
  listen_sock : Option Nat
  client_sock : Option Nat
  rx_thread : TaskPtr
  ops : List ModOp
  deriving DecidableEq, Repr

/-- The static initialisers of lines 26-34. -/
def mod_initial : ModState :=
  { speed_mult := 65536, pm_input_dev := none, listen_sock := none, client_sock := none,
    rx_thread := TaskPtr.null, ops := [] }

/-- Macro `IS_ERR(ptr)` on the result of `kthread_run`. -/
def IS_ERR : TaskPtr → Bool
  | TaskPtr.err _ => true
  | _ => false

/-- Macro `PTR_ERR(ptr)` on the result of `kthread_run`. -/
def PTR_ERR : TaskPtr → Int
  | TaskPtr.err e => e
  | _ => 0

/-- Function `pm_init` (lines 128-198): the value returned and the state left. `EINVAL` and
`ENOMEM` are the errno constants of the kernel headers; the messages logged and the fields
set on the input device before it is registered (lines 146-156) are left out. -/
def pm_init (EINVAL ENOMEM : Int) (speed_pct interp_steps : Int) (env : InitEnv)
    (st : ModState) : Int × ModState :=
  if interp_steps < 0 then
    (-EINVAL, st)
  else
    let st := { st with speed_mult := pm_init_speed_mult speed_pct }
    let st := { st with pm_input_dev := env.input_dev,
                        ops := st.ops ++ [ModOp.input_allocate_device env.input_dev] }
    if st.pm_input_dev = none then
      (-ENOMEM, st)
    else
      let err := env.register_err
      let st := { st with ops := st.ops ++ [ModOp.input_register_device err] }
      if err ≠ 0 then
        (err, st)
      else
        let err := env.sock_create_err
        let st := { st with
          listen_sock := if err < 0 then st.listen_sock else some env.new_listen_sock,
          ops := st.ops ++ [ModOp.sock_create_kern err env.new_listen_sock] }
        if err < 0 then
          (err, st)
        else
          let err := env.bind_err
          let st := { st with ops := st.ops ++ [ModOp.bind err] }
          if err < 0 then
            (err, st)
          else
            let err := env.listen_err
            let st := { st with ops := st.ops ++ [ModOp.listen err] }
            if err < 0 then
              (err, st)
            else
              let st := { st with rx_thread := env.thread,
                                  ops := st.ops ++ [ModOp.kthread_run env.thread] }
              if IS_ERR st.rx_thread then
                (PTR_ERR st.rx_thread, st)
              else
                (0, st)

/-- Function `pm_exit` (lines 200-213); `client_sock` is what the receive loop left there. -/
def pm_exit (st : ModState) : ModState :=
  let st :=
    if st.rx_thread ≠ TaskPtr.null then
      { st with ops := st.ops ++ [ModOp.kthread_stop st.rx_thread] }
    else st
  let st :=
    match st.client_sock with
    | some sock => { st with ops := st.ops ++ [ModOp.sock_release sock] }
    | none => st
  let st :=
    match st.listen_sock with
    | some sock => { st with ops := st.ops ++ [ModOp.sock_release sock] }
    | none => st
  { st with ops := st.ops ++ [ModOp.input_unregister_device] }

/-- Whether a call gives a resource back: stops the worker, releases a socket or unregisters
the input device. -/
def is_release : ModOp → Bool
  | ModOp.kthread_stop _ => true
  | ModOp.sock_release _ => true
  | ModOp.input_unregister_device => true
  | _ => false

/-- Whether the input device is registered after the calls `ops`. -/
def dev_registered (ops : List ModOp) : Bool :=
  ops.foldl (fun r op =>
    match op with
    | ModOp.input_register_device err => if err = 0 then true else r
    | ModOp.input_unregister_device => false
    | _ => r) false

/-- The sockets created and not yet released after the calls `ops`. -/
def open_socks (ops : List ModOp) : List Nat :=
  ops.foldl (fun l op =>
    match op with
    | ModOp.sock_create_kern err sock => if err < 0 then l else sock :: l
    | ModOp.sock_release sock => l.erase sock
    | _ => l) []

/-! ## Totals of the reported motion -/

/-- Sum of the values reported on the relative axis `code`. -/
def rel_total (code : RelCode) : List InputEvent → Int
  | [] => 0
  | InputEvent.rel c v :: es => (if c = code then v else 0) + rel_total code es
  | _ :: es => rel_total code es

/-! # Theorems -/

/-! ## Auxiliary lemmas -/

theorem wrap_s32_of_range (x : Int) (hlo : -2147483648 ≤ x) (hhi : x ≤ 2147483647) :
    wrap_s32 x = x := by
  unfold wrap_s32
  omega

theorem wrap_s16_of_range (x : Int) (hlo : -32768 ≤ x) (hhi : x ≤ 32767) :
    wrap_s16 x = x := by
  unfold wrap_s16
  omega

theorem bytes_or_eq (hi lo : Nat) (hlo : lo < 256) : (hi <<< 8) ||| lo = hi * 256 + lo := by
  have h := Nat.mul_add_lt_is_or (i := 8) (b := lo) (by simpa using hlo) hi
  rw [Nat.shiftLeft_eq]
  simp only [Nat.reducePow] at h ⊢
  rw [Nat.mul_comm hi 256]
  exact h.symm

theorem decode_s16_eq (hi lo : Nat) (hhi : hi < 256) (hlo : lo < 256) :
    decode_s16 hi lo =
      if 32768 ≤ hi * 256 + lo then ((hi * 256 + lo : Nat) : Int) - 65536
      else ((hi * 256 + lo : Nat) : Int) := by
  unfold decode_s16 wrap_s16
  rw [bytes_or_eq hi lo hlo]
  split <;> simp only [Int.ofNat_eq_coe] <;> omega

theorem and_LMB_ne_zero (b : Nat) : b &&& LMB_MASK ≠ 0 ↔ b.testBit 0 = true := by
  simp [LMB_MASK, Nat.testBit_zero]

theorem and_RMB_ne_zero (b : Nat) : b &&& RMB_MASK ≠ 0 ↔ b.testBit 1 = true := by
  have h := Nat.and_two_pow b 1
  simp only [pow_one] at h
  unfold RMB_MASK
  rw [h]
  cases b.testBit 1 <;> simp

theorem rel_loop_eq (n sx sy : Int) (k : Nat) :
    ∀ (i : Int) (dev : InputDev), (n - i).toNat = k →
      rel_loop n sx sy i dev = dev ++ (List.replicate k (rel_step sx sy)).flatten := by
  induction k with
  | zero =>
    intro i dev h
    rw [rel_loop]
    have : ¬ i < n := by omega
    simp [this]
  | succ k ih =>
    intro i dev h
    rw [rel_loop]
    have hlt : i < n := by omega
    simp only [hlt, if_true]
    rw [ih (i + 1) _ (by omega)]
    simp [List.replicate_succ, rel_step, input_sync, input_report_rel]

theorem emit_motion_pos (n : Int) (dev : InputDev) (dx dy : Int) (hn : 0 < n) :
    emit_motion n dev dx dy =
      dev ++ (List.replicate n.toNat (rel_step (Int.tdiv dx n) (Int.tdiv dy n))).flatten := by
  unfold emit_motion
  simp only [gt_iff_lt, hn, if_true]
  exact rel_loop_eq n _ _ n.toNat 0 dev (by simp)

theorem emit_motion_nonpos (n : Int) (dev : InputDev) (dx dy : Int) (hn : n ≤ 0) :
    emit_motion n dev dx dy =
      dev ++ [InputEvent.rel RelCode.REL_X dx, InputEvent.rel RelCode.REL_Y dy,
              InputEvent.sync] := by
  unfold emit_motion
  have : ¬ n > 0 := by omega
  simp [this, input_sync, input_report_rel]

theorem handle_buttons_eq (dev : InputDev) (buttons : Nat) :
    handle_buttons dev buttons =
      dev ++ (if buttons.testBit 0 then pulse KeyCode.BTN_LEFT else [])
          ++ (if buttons.testBit 1 then pulse KeyCode.BTN_RIGHT else []) := by
  unfold handle_buttons
  simp only [and_LMB_ne_zero, and_RMB_ne_zero]
  cases buttons.testBit 0 <;> cases buttons.testBit 1 <;>
    simp [pulse, input_sync, input_report_key]

/-! ## Frame decoding -/

/-- C1: for every 5-byte frame `[b0,b1,b2,b3,b4]`, frame processing hands `b0` to
`handle_buttons` and scales and emits `dx`, `dy`, where `dx` is the big-endian two's-complement
16-bit value of `(b1,b2)` (`b1*256+b2`, minus 65536 from 32768 on) and `dy` the same for
`(b3,b4)`; the frame `03 00 0A FF F6` gives buttons 3, dx 10, dy -10. -/
theorem C1_decode_frame (g : Globals) (dev : InputDev) (b0 b1 b2 b3 b4 : Nat)
    (h1 : b1 < 256) (h2 : b2 < 256) (h3 : b3 < 256) (h4 : b4 < 256) :
    (decode_s16 b1 b2 =
        if 32768 ≤ b1 * 256 + b2 then ((b1 * 256 + b2 : Nat) : Int) - 65536
        else ((b1 * 256 + b2 : Nat) : Int)) ∧
    (decode_s16 b3 b4 =
        if 32768 ≤ b3 * 256 + b4 then ((b3 * 256 + b4 : Nat) : Int) - 65536
        else ((b3 * 256 + b4 : Nat) : Int)) ∧
    process_frame g dev [b0, b1, b2, b3, b4] =
      emit_motion g.interp_steps (handle_buttons dev b0)
        (scale g.speed_mult
          (if 32768 ≤ b1 * 256 + b2 then ((b1 * 256 + b2 : Nat) : Int) - 65536
           else ((b1 * 256 + b2 : Nat) : Int)))
        (scale g.speed_mult
          (if 32768 ≤ b3 * 256 + b4 then ((b3 * 256 + b4 : Nat) : Int) - 65536
           else ((b3 * 256 + b4 : Nat) : Int))) ∧
    decode_s16 0x00 0x0A = 10 ∧ decode_s16 0xFF 0xF6 = -10 ∧
    process_frame g dev [0x03, 0x00, 0x0A, 0xFF, 0xF6] =
      emit_motion g.interp_steps (handle_buttons dev 3)
        (scale g.speed_mult 10) (scale g.speed_mult (-10)) := by
  have e12 := decode_s16_eq b1 b2 h1 h2
  have e34 := decode_s16_eq b3 b4 h3 h4
  have ea : decode_s16 0x00 0x0A = 10 := by decide
  have eb : decode_s16 0xFF 0xF6 = -10 := by decide
  refine ⟨e12, e34, ?_, ea, eb, ?_⟩
  · simp only [process_frame, handle_movement, List.getD_cons_zero, List.getD_cons_succ]
    rw [e12, e34]
  · simp only [process_frame, handle_movement, List.getD_cons_zero, List.getD_cons_succ]
    rw [ea, eb]

theorem C1_decode_frame_witness :
    decode_s16 0x80 0x00 = -32768 ∧ decode_s16 0x7F 0xFF = 32767 := by
  have h := C1_decode_frame ⟨65536, 0⟩ [] 0 0x80 0x00 0x7F 0xFF
    (by decide) (by decide) (by decide) (by decide)
  exact ⟨by simpa using h.1, by simpa using h.2.1⟩

/-! ## Buttons -/

/-- C2: whatever was reported before (`dev`), `handle_buttons` appends exactly one
press, sync, release, sync sequence for the left button when bit 0 of the byte is set and no
left-button event when it is clear, then the same for bit 1 and the right button; what is
appended is a function of the current byte alone. -/
theorem C2_handle_buttons_pulse (dev dev' : InputDev) (buttons : Nat) :
    handle_buttons dev buttons =
      dev ++ (if buttons.testBit 0 then
                [InputEvent.key KeyCode.BTN_LEFT 1, InputEvent.sync,
                 InputEvent.key KeyCode.BTN_LEFT 0, InputEvent.sync]
              else [])
          ++ (if buttons.testBit 1 then
                [InputEvent.key KeyCode.BTN_RIGHT 1, InputEvent.sync,
                 InputEvent.key KeyCode.BTN_RIGHT 0, InputEvent.sync]
              else []) ∧
    (handle_buttons dev buttons).drop dev.length =
      (handle_buttons dev' buttons).drop dev'.length := by
  have h := handle_buttons_eq dev buttons
  have h' := handle_buttons_eq dev' buttons
  refine ⟨by simpa [pulse] using h, ?_⟩
  rw [h, h']
  simp [List.append_assoc]

/-! ## Speed scaling -/

/-- C3: at `speed_pct = 200` and the boundary delta 32767 the driver's scaled delta is -2,
while the exact fixed-point result `(d * multiplier) >> 16` is 65534; likewise at
`speed_pct = -100` and delta -32768 the driver gives -32768 and the exact result is 32768. -/
theorem C3_scale_wraps :
    pm_init_speed_mult 200 = 131072 ∧
    scale (pm_init_speed_mult 200) 32767 = -2 ∧
    (32767 * pm_init_speed_mult 200) >>> 16 = 65534 ∧
    scale (pm_init_speed_mult (-100)) (-32768) = -32768 ∧
    (-32768 * pm_init_speed_mult (-100)) >>> 16 = 32768 := by
  decide

theorem pm_init_sets_speed_mult (EINVAL ENOMEM speed_pct interp_steps : Int) (env : InitEnv)
    (st : ModState) (hn : 0 ≤ interp_steps) :
    (pm_init EINVAL ENOMEM speed_pct interp_steps env st).2.speed_mult =
      pm_init_speed_mult speed_pct := by
  have h0 : ¬ interp_steps < 0 := by omega
  unfold pm_init
  by_cases h1 : env.input_dev = none
  · simp [h0, h1]
  · by_cases h2 : env.register_err = 0
    · by_cases h3 : env.sock_create_err < 0
      · simp [h0, h1, h2, h3]
      · by_cases h4 : env.bind_err < 0
        · simp [h0, h1, h2, h3, h4]
        · by_cases h5 : env.listen_err < 0
          · simp [h0, h1, h2, h3, h4, h5]
          · by_cases h6 : IS_ERR env.thread = true <;> simp [h0, h1, h2, h3, h4, h5, h6]
    · simp [h0, h1, h2]

/-- C4: for `speed_pct` in -200..200, startup (`pm_init`, once the check of `interp_steps`
has passed and whatever the later steps answer) leaves in `speed_mult` the value
`speed_pct * 65536 / 100` with division truncating toward zero, the product staying inside the
32-bit `int` range; 100 gives 65536, 50 gives 32768, -200 gives -131072, 33 gives 21626 and
-33 gives -21626. -/
theorem C4_speed_mult (EINVAL ENOMEM speed_pct interp_steps : Int) (env : InitEnv)
    (st : ModState) (hlo : -200 ≤ speed_pct) (hhi : speed_pct ≤ 200)
    (hn : 0 ≤ interp_steps) :
    (pm_init EINVAL ENOMEM speed_pct interp_steps env st).2.speed_mult =
      Int.tdiv (speed_pct * 65536) 100 ∧
    pm_init_speed_mult speed_pct = Int.tdiv (speed_pct * 65536) 100 ∧
    -2147483648 ≤ speed_pct * 65536 ∧ speed_pct * 65536 ≤ 2147483647 ∧
    wrap_s32 (speed_pct * 65536) = speed_pct * 65536 ∧
    (pm_init EINVAL ENOMEM 100 interp_steps env st).2.speed_mult = 65536 ∧
    (pm_init EINVAL ENOMEM 50 interp_steps env st).2.speed_mult = 32768 ∧
    (pm_init EINVAL ENOMEM (-200) interp_steps env st).2.speed_mult = -131072 ∧
    (pm_init EINVAL ENOMEM 33 interp_steps env st).2.speed_mult = 21626 ∧
    (pm_init EINVAL ENOMEM (-33) interp_steps env st).2.speed_mult = -21626 ∧
    pm_init_speed_mult 100 = 65536 ∧ pm_init_speed_mult 50 = 32768 ∧
    pm_init_speed_mult (-200) = -131072 ∧ pm_init_speed_mult 33 = 21626 ∧
    pm_init_speed_mult (-33) = -21626 := by
  have hw : wrap_s32 (speed_pct * 65536) = speed_pct * 65536 :=
    wrap_s32_of_range _ (by omega) (by omega)
  have hm : pm_init_speed_mult speed_pct = Int.tdiv (speed_pct * 65536) 100 := by
    unfold pm_init_speed_mult
    rw [hw]
  have hs := fun sp => pm_init_sets_speed_mult EINVAL ENOMEM sp interp_steps env st hn
  refine ⟨?_, hm, by omega, by omega, hw, ?_, ?_, ?_, ?_, ?_,
    by decide, by decide, by decide, by decide, by decide⟩
  · rw [hs, hm]
  · rw [hs]; decide
  · rw [hs]; decide
  · rw [hs]; decide
  · rw [hs]; decide
  · rw [hs]; decide

theorem C4_speed_mult_witness :
    (pm_init 22 12 150 0 ⟨some 1, 0, 0, 5, 0, 0, TaskPtr.task 9⟩ mod_initial).2.speed_mult =
      Int.tdiv (150 * 65536) 100 ∧
    (pm_init 22 12 100 3 ⟨none, 0, 0, 5, 0, 0, TaskPtr.task 9⟩ mod_initial).2.speed_mult =
      65536 :=
  ⟨(C4_speed_mult 22 12 150 0 ⟨some 1, 0, 0, 5, 0, 0, TaskPtr.task 9⟩ mod_initial
      (by decide) (by decide) (by decide)).1,
   (C4_speed_mult 22 12 150 3 ⟨none, 0, 0, 5, 0, 0, TaskPtr.task 9⟩ mod_initial
      (by decide) (by decide) (by decide)).2.2.2.2.2.1⟩

/-! ## Interpolation -/

/-- C5: for scaled deltas `dx`, `dy` and `interp_steps = n > 0` the motion stage appends exactly
`n` relative-motion events (REL_X, REL_Y, sync), each carrying `dx / n` and `dy / n` with
division truncating toward zero and nothing added for the remainder; with (10, -7) and 3 steps
these are three events (3, -2). -/
theorem C5_emit_motion_steps (n : Int) (dev : InputDev) (dx dy : Int) (hn : 0 < n) :
    emit_motion n dev dx dy =
      dev ++ (List.replicate n.toNat
        [InputEvent.rel RelCode.REL_X (Int.tdiv dx n), InputEvent.rel RelCode.REL_Y (Int.tdiv dy n),
         InputEvent.sync]).flatten ∧
    (n.toNat : Int) = n ∧
    emit_motion 3 dev 10 (-7) =
      dev ++ [InputEvent.rel RelCode.REL_X 3, InputEvent.rel RelCode.REL_Y (-2), InputEvent.sync,
              InputEvent.rel RelCode.REL_X 3, InputEvent.rel RelCode.REL_Y (-2), InputEvent.sync,
              InputEvent.rel RelCode.REL_X 3, InputEvent.rel RelCode.REL_Y (-2),
              InputEvent.sync] := by
  refine ⟨emit_motion_pos n dev dx dy hn, by omega, ?_⟩
  rw [emit_motion_pos 3 dev 10 (-7) (by decide)]
  congr 1

theorem C5_emit_motion_steps_witness :
    emit_motion 2 [] 7 (-7) =
      [InputEvent.rel RelCode.REL_X 3, InputEvent.rel RelCode.REL_Y (-3), InputEvent.sync,
       InputEvent.rel RelCode.REL_X 3, InputEvent.rel RelCode.REL_Y (-3), InputEvent.sync] := by
  rw [(C5_emit_motion_steps 2 [] 7 (-7) (by decide)).1]
  decide

/-- C6: for scaled deltas `dx`, `dy`, when `interp_steps` is 0 or negative the motion stage
appends exactly one relative-motion event carrying `dx` and `dy` unchanged. -/
theorem C6_emit_motion_passthrough (n : Int) (dev : InputDev) (dx dy : Int) (hn : n ≤ 0) :
    emit_motion n dev dx dy =
      dev ++ [InputEvent.rel RelCode.REL_X dx, InputEvent.rel RelCode.REL_Y dy,
              InputEvent.sync] :=
  emit_motion_nonpos n dev dx dy hn

theorem C6_emit_motion_passthrough_witness :
    emit_motion 0 [] 10 (-7) =
      [InputEvent.rel RelCode.REL_X 10, InputEvent.rel RelCode.REL_Y (-7), InputEvent.sync] :=
  C6_emit_motion_passthrough 0 [] 10 (-7) (by decide)

/-! ## The receive loop -/

theorem rx_iteration_connected (EAGAIN : Int) (g : Globals) (st : RxState) (sock : Nat)
    (env : IterEnv) (hc : st.client_sock = some sock) :
    rx_iteration EAGAIN g st env = rx_recv EAGAIN g st sock env := by
  simp [rx_iteration, rx_accept, hc]

theorem rx_recv_full_dev (EAGAIN : Int) (g : Globals) (st : RxState) (sock : Nat)
    (env : IterEnv) (hE : env.recv_len ≠ -EAGAIN) (hlen : 5 ≤ env.recv_len) :
    (rx_recv EAGAIN g st sock env).dev =
      process_frame g st.dev (recv_fill st.buf env.recv_data) := by
  have h1 : ¬ env.recv_len ≤ 0 := by omega
  have h2 : ¬ env.recv_len < 5 := by omega
  simp [rx_recv, hE, h1, h2]

theorem process_frame_five (g : Globals) (dev : InputDev) (buf : List Nat)
    (b0 b1 b2 b3 b4 : Nat) :
    process_frame g dev (recv_fill buf [b0, b1, b2, b3, b4]) =
      emit_motion g.interp_steps (handle_buttons dev b0)
        (scale g.speed_mult (decode_s16 b1 b2)) (scale g.speed_mult (decode_s16 b3 b4)) := by
  simp [process_frame, handle_movement, recv_fill]

/-- C7: a connected iteration whose read returns the full frame `00 FF FB FF FB`, at
`speed_pct = 100`, reports no button event and, with `interp_steps = 0`, exactly one
relative-motion event (REL_X -5, REL_Y -5, sync); with `interp_steps = 5`, exactly five
relative-motion events (REL_X -1, REL_Y -1, sync). -/
theorem C7_frame_motion (EAGAIN : Int) (st : RxState) (sock : Nat) (env : IterEnv)
    (hE : (5 : Int) ≠ -EAGAIN) (hc : st.client_sock = some sock)
    (hlen : env.recv_len = 5) (hdata : env.recv_data = [0x00, 0xFF, 0xFB, 0xFF, 0xFB]) :
    (rx_iteration EAGAIN ⟨pm_init_speed_mult 100, 0⟩ st env).dev =
      st.dev ++ [InputEvent.rel RelCode.REL_X (-5), InputEvent.rel RelCode.REL_Y (-5),
                 InputEvent.sync] ∧
    (rx_iteration EAGAIN ⟨pm_init_speed_mult 100, 5⟩ st env).dev =
      st.dev ++ [InputEvent.rel RelCode.REL_X (-1), InputEvent.rel RelCode.REL_Y (-1),
                 InputEvent.sync,
                 InputEvent.rel RelCode.REL_X (-1), InputEvent.rel RelCode.REL_Y (-1),
                 InputEvent.sync,
                 InputEvent.rel RelCode.REL_X (-1), InputEvent.rel RelCode.REL_Y (-1),
                 InputEvent.sync,
                 InputEvent.rel RelCode.REL_X (-1), InputEvent.rel RelCode.REL_Y (-1),
                 InputEvent.sync,
                 InputEvent.rel RelCode.REL_X (-1), InputEvent.rel RelCode.REL_Y (-1),
                 InputEvent.sync] := by
  have hb : handle_buttons st.dev 0 = st.dev := by
    rw [handle_buttons_eq]; simp
  have hs : scale (pm_init_speed_mult 100) (decode_s16 0xFF 0xFB) = -5 := by decide
  constructor
  · rw [rx_iteration_connected EAGAIN _ st sock env hc,
      rx_recv_full_dev EAGAIN _ st sock env (by rw [hlen]; exact hE) (by omega),
      hdata, process_frame_five, hb, hs]
    exact emit_motion_nonpos 0 st.dev (-5) (-5) (by decide)
  · rw [rx_iteration_connected EAGAIN _ st sock env hc,
      rx_recv_full_dev EAGAIN _ st sock env (by rw [hlen]; exact hE) (by omega),
      hdata, process_frame_five, hb, hs]
    rw [emit_motion_pos 5 st.dev (-5) (-5) (by decide)]
    congr 1

theorem C7_frame_motion_witness :
    (rx_iteration 11 ⟨pm_init_speed_mult 100, 0⟩ ⟨some 1, [0, 0, 0, 0, 0], [], []⟩
        ⟨0, 0, 5, [0x00, 0xFF, 0xFB, 0xFF, 0xFB]⟩).dev =
      [InputEvent.rel RelCode.REL_X (-5), InputEvent.rel RelCode.REL_Y (-5),
       InputEvent.sync] :=
  (C7_frame_motion 11 ⟨some 1, [0, 0, 0, 0, 0], [], []⟩ 1
    ⟨0, 0, 5, [0x00, 0xFF, 0xFB, 0xFF, 0xFB]⟩ (by decide) rfl rfl rfl).1

/-- C8 as stated fails: processing the full frame `01 00 05 00 00` at `speed_pct = 100`,
`interp_steps = 0` reports a relative motion that is not 0 (REL_X 5). -/
theorem C8_motion_not_zero :
    ¬ (∀ (code : RelCode) (v : Int),
        InputEvent.rel code v ∈
          (rx_iteration 11 ⟨pm_init_speed_mult 100, 0⟩ ⟨some 1, [0, 0, 0, 0, 0], [], []⟩
            ⟨0, 0, 5, [0x01, 0x00, 0x05, 0x00, 0x00]⟩).dev → v = 0) := by
  intro h
  have h5 := h RelCode.REL_X 5 (by decide)
  exact absurd h5 (by decide)

/-- C8 amended: a connected iteration whose read returns the full frame `01 00 05 00 00`, at
`speed_pct = 100` and `interp_steps = 0`, reports a left-click pulse (press BTN_LEFT, sync,
release BTN_LEFT, sync) followed by one relative-motion event with REL_X 5 and REL_Y 0. -/
theorem C8_click_and_motion (EAGAIN : Int) (st : RxState) (sock : Nat) (env : IterEnv)
    (hE : (5 : Int) ≠ -EAGAIN) (hc : st.client_sock = some sock)
    (hlen : env.recv_len = 5) (hdata : env.recv_data = [0x01, 0x00, 0x05, 0x00, 0x00]) :
    (rx_iteration EAGAIN ⟨pm_init_speed_mult 100, 0⟩ st env).dev =
      st.dev ++ [InputEvent.key KeyCode.BTN_LEFT 1, InputEvent.sync,
                 InputEvent.key KeyCode.BTN_LEFT 0, InputEvent.sync,
                 InputEvent.rel RelCode.REL_X 5, InputEvent.rel RelCode.REL_Y 0,
                 InputEvent.sync] := by
  have t0 : Nat.testBit 1 0 = true := by decide
  have t1 : Nat.testBit 1 1 = false := by decide
  have hb : handle_buttons st.dev 1 = st.dev ++ pulse KeyCode.BTN_LEFT := by
    rw [handle_buttons_eq, t0, t1]; simp
  have hx : scale (pm_init_speed_mult 100) (decode_s16 0x00 0x05) = 5 := by decide
  have hy : scale (pm_init_speed_mult 100) (decode_s16 0x00 0x00) = 0 := by decide
  rw [rx_iteration_connected EAGAIN _ st sock env hc,
    rx_recv_full_dev EAGAIN _ st sock env (by rw [hlen]; exact hE) (by omega),
    hdata, process_frame_five, hb, hx, hy,
    emit_motion_nonpos 0 _ 5 0 (by decide)]
  simp [pulse]

theorem C8_click_and_motion_witness :
    (rx_iteration 11 ⟨pm_init_speed_mult 100, 0⟩ ⟨some 1, [0, 0, 0, 0, 0], [], []⟩
        ⟨0, 0, 5, [0x01, 0x00, 0x05, 0x00, 0x00]⟩).dev =
      [InputEvent.key KeyCode.BTN_LEFT 1, InputEvent.sync,
       InputEvent.key KeyCode.BTN_LEFT 0, InputEvent.sync,
       InputEvent.rel RelCode.REL_X 5, InputEvent.rel RelCode.REL_Y 0, InputEvent.sync] :=
  C8_click_and_motion 11 ⟨some 1, [0, 0, 0, 0, 0], [], []⟩ 1
    ⟨0, 0, 5, [0x01, 0x00, 0x05, 0x00, 0x00]⟩ (by decide) rfl rfl rfl

/-! ## Connection handling -/

theorem live_handles_append (live : List Nat) (l1 l2 : List SockOp) :
    live_handles live (l1 ++ l2) = live_handles (live_handles live l1) l2 := by
  simp [live_handles, List.foldl_append]

theorem trace_ok_append (l1 l2 : List SockOp) :
    ∀ live, trace_ok live (l1 ++ l2) ↔
      trace_ok live l1 ∧ trace_ok (live_handles live l1) l2 := by
  induction l1 with
  | nil => intro live; simp [trace_ok, live_handles]
  | cons op ops ih =>
    intro live
    have h := ih (live_step live op)
    show (op_allowed live op ∧ live.length ≤ 1 ∧ trace_ok (live_step live op) (ops ++ l2)) ↔
      (op_allowed live op ∧ live.length ≤ 1 ∧ trace_ok (live_step live op) ops) ∧
        trace_ok (live_handles (live_step live op) ops) l2
    rw [h]
    tauto

theorem trace_ok_at (live : List Nat) (pre post : List SockOp) (op : SockOp)
    (h : trace_ok live (pre ++ op :: post)) :
    op_allowed (live_handles live pre) op ∧ (live_handles live pre).length ≤ 1 := by
  rw [trace_ok_append] at h
  exact ⟨h.2.1, h.2.2.1⟩

theorem mem_live_handles (x : Nat) (pre : List SockOp) :
    ∀ live, x ∈ live_handles live pre → x ∈ live ∨ SockOp.accept 0 x ∈ pre := by
  induction pre with
  | nil => intro live h; exact Or.inl h
  | cons op ops ih =>
    intro live h
    simp only [live_handles, List.foldl_cons] at h
    rcases ih _ h with h1 | h1
    · cases op with
      | accept r s =>
        simp only [live_step] at h1
        split at h1
        · rename_i hr
          rcases List.mem_cons.mp h1 with h2 | h2
          · right; subst hr; subst h2; exact List.mem_cons_self _ _
          · exact Or.inl h2
        · exact Or.inl h1
      | release s => exact Or.inl (List.mem_of_mem_erase h1)
      | recvmsg s len => exact Or.inl h1
      | ssleep n => exact Or.inl h1
      | msleep n => exact Or.inl h1
    · exact Or.inr (List.mem_cons_of_mem _ h1)

theorem loopInv_init (st : RxState) : LoopInv st.log st.client_sock.toList st :=
  ⟨[], by simp, by simp [trace_ok], by simp [live_handles]⟩

theorem loopInv_accept (base : List SockOp) (live0 : List Nat) (st : RxState) (env : IterEnv)
    (h : LoopInv base live0 st) : LoopInv base live0 (rx_accept st env) := by
  obtain ⟨new, hlog, hok, hlive⟩ := h
  unfold rx_accept
  cases hc : st.client_sock with
  | some s => exact ⟨new, hlog, hok, by rw [hlive]⟩
  | none =>
    rw [hc] at hlive
    simp only [Option.toList] at hlive
    by_cases hr : env.accept_r = 0
    · refine ⟨new ++ [SockOp.accept env.accept_r env.new_sock], ?_, ?_, ?_⟩
      · simp [hr, hlog]
      · rw [trace_ok_append]
        exact ⟨hok, by simp [trace_ok, op_allowed, hlive]⟩
      · rw [live_handles_append, hlive]
        simp [live_handles, live_step, hr]
    · refine ⟨new ++ [SockOp.accept env.accept_r env.new_sock, SockOp.ssleep 1], ?_, ?_, ?_⟩
      · simp [hr, hlog]
      · rw [trace_ok_append]
        exact ⟨hok, by simp [trace_ok, op_allowed, hlive, live_step, hr]⟩
      · rw [live_handles_append, hlive]
        simp [live_handles, live_step, hr, hc]

theorem loopInv_recv (EAGAIN : Int) (g : Globals) (base : List SockOp) (live0 : List Nat)
    (st : RxState) (sock : Nat) (env : IterEnv) (hc : st.client_sock = some sock)
    (h : LoopInv base live0 st) : LoopInv base live0 (rx_recv EAGAIN g st sock env) := by
  obtain ⟨new, hlog, hok, hlive⟩ := h
  rw [hc] at hlive
  simp only [Option.toList] at hlive
  unfold rx_recv
  by_cases h1 : env.recv_len = -EAGAIN
  · refine ⟨new ++ [SockOp.recvmsg sock env.recv_len, SockOp.msleep 5], ?_, ?_, ?_⟩
    · simp [h1, hlog]
    · rw [trace_ok_append]
      exact ⟨hok, by simp [trace_ok, op_allowed, hlive, live_step]⟩
    · rw [live_handles_append, hlive]
      simp [live_handles, live_step, h1, hc]
  · by_cases h2 : env.recv_len ≤ 0
    · refine ⟨new ++ [SockOp.recvmsg sock env.recv_len, SockOp.release sock], ?_, ?_, ?_⟩
      · simp [h1, h2, hlog]
      · rw [trace_ok_append]
        exact ⟨hok, by simp [trace_ok, op_allowed, hlive, live_step]⟩
      · rw [live_handles_append, hlive]
        simp [live_handles, live_step, h1, h2]
    · refine ⟨new ++ [SockOp.recvmsg sock env.recv_len], ?_, ?_, ?_⟩
      · by_cases h3 : env.recv_len < 5 <;> simp [h1, h2, h3, hlog]
      · rw [trace_ok_append]
        exact ⟨hok, by simp [trace_ok, op_allowed, hlive]⟩
      · rw [live_handles_append, hlive]
        by_cases h3 : env.recv_len < 5 <;> simp [live_handles, live_step, h1, h2, h3, hc]

theorem loopInv_iteration (EAGAIN : Int) (g : Globals) (base : List SockOp) (live0 : List Nat)
    (st : RxState) (env : IterEnv) (h : LoopInv base live0 st) :
    LoopInv base live0 (rx_iteration EAGAIN g st env) := by
  have ha := loopInv_accept base live0 st env h
  unfold rx_iteration
  cases hc : (rx_accept st env).client_sock with
  | none => simpa [hc] using ha
  | some sock => simpa [hc] using loopInv_recv EAGAIN g base live0 _ sock env hc ha

theorem loopInv_loop (EAGAIN : Int) (g : Globals) (base : List SockOp) (live0 : List Nat)
    (envs : List IterEnv) :
    ∀ st, LoopInv base live0 st → LoopInv base live0 (rx_loop EAGAIN g st envs) := by
  induction envs with
  | nil => intro st h; simpa [rx_loop] using h
  | cons env envs ih =>
    intro st h
    have := ih _ (loopInv_iteration EAGAIN g base live0 st env h)
    simpa [rx_loop] using this

/-- C9: from a state with no client, a successful accept leaves `client_sock` holding the
accepted handle (and the iteration goes on to read from it); from a state holding the client
handle `h`, a read result that is zero or negative and not `-EAGAIN` makes the iteration call
`sock_release(h)` exactly once, clear `client_sock` and report nothing on the input device; in
whatever iterations follow, `sock_release(h)` is not called again unless a later accept has
returned `h` anew. -/
theorem C9_accept_then_closed (EAGAIN : Int) (g : Globals) (st0 st : RxState)
    (env0 env : IterEnv) (h : Nat)
    (h0 : st0.client_sock = none) (ha : env0.accept_r = 0)
    (hc : st.client_sock = some h) (hle : env.recv_len ≤ 0) (hne : env.recv_len ≠ -EAGAIN) :
    ((rx_accept st0 env0).client_sock = some env0.new_sock ∧
      (rx_accept st0 env0).log = st0.log ++ [SockOp.accept 0 env0.new_sock] ∧
      (rx_accept st0 env0).dev = st0.dev ∧
      rx_iteration EAGAIN g st0 env0 =
        rx_recv EAGAIN g (rx_accept st0 env0) env0.new_sock env0) ∧
    ((rx_iteration EAGAIN g st env).client_sock = none ∧
      (rx_iteration EAGAIN g st env).log =
        st.log ++ [SockOp.recvmsg h env.recv_len, SockOp.release h] ∧
      (rx_iteration EAGAIN g st env).dev = st.dev) ∧
    (∀ (envs : List IterEnv) (pre post : List SockOp),
      (rx_loop EAGAIN g (rx_iteration EAGAIN g st env) envs).log =
        (rx_iteration EAGAIN g st env).log ++ (pre ++ SockOp.release h :: post) →
      SockOp.accept 0 h ∈ pre) := by
  have hacc : (rx_accept st0 env0).client_sock = some env0.new_sock := by
    simp [rx_accept, h0, ha]
  have hclosed : (rx_iteration EAGAIN g st env).client_sock = none := by
    rw [rx_iteration_connected EAGAIN g st h env hc]
    simp [rx_recv, hne, hle]
  refine ⟨⟨hacc, ?_, ?_, ?_⟩, ⟨hclosed, ?_, ?_⟩, ?_⟩
  · simp [rx_accept, h0, ha]
  · simp [rx_accept, h0, ha]
  · simp [rx_iteration, hacc]
  · rw [rx_iteration_connected EAGAIN g st h env hc]
    simp [rx_recv, hne, hle]
  · rw [rx_iteration_connected EAGAIN g st h env hc]
    simp [rx_recv, hne, hle]
  · intro envs pre post hlog
    have hinv := loopInv_loop EAGAIN g _ _ envs _ (loopInv_init (rx_iteration EAGAIN g st env))
    obtain ⟨new, hnew, hok, _⟩ := hinv
    rw [hclosed] at hok
    simp only [Option.toList] at hok
    have hEq : new = pre ++ SockOp.release h :: post :=
      List.append_cancel_left (hnew.symm.trans hlog)
    rw [hEq] at hok
    have hrel := (trace_ok_at [] pre post _ hok).1
    simp only [op_allowed] at hrel
    have hmem : h ∈ live_handles [] pre := by rw [hrel]; exact List.mem_singleton_self h
    rcases mem_live_handles h pre [] hmem with h1 | h1
    · exact absurd h1 (List.not_mem_nil h)
    · exact h1

theorem C9_accept_then_closed_witness :
    (rx_accept ⟨none, [0, 0, 0, 0, 0], [], []⟩ ⟨0, 7, 0, []⟩).client_sock = some 7 ∧
    (rx_iteration 11 ⟨65536, 0⟩ ⟨some 7, [0, 0, 0, 0, 0], [], [SockOp.accept 0 7]⟩
        ⟨0, 8, 0, []⟩).log =
      [SockOp.accept 0 7, SockOp.recvmsg 7 0, SockOp.release 7] := by
  have h := C9_accept_then_closed 11 ⟨65536, 0⟩ ⟨none, [0, 0, 0, 0, 0], [], []⟩
    ⟨some 7, [0, 0, 0, 0, 0], [], [SockOp.accept 0 7]⟩ ⟨0, 7, 0, []⟩ ⟨0, 8, 0, []⟩ 7
    rfl rfl rfl (by decide) (by decide)
  exact ⟨h.1.1, h.2.1.2.1⟩

/-- C10: in every state the loop reaches from the initial one (no client, no call made yet),
before each call made on the socket layer at most one handle is accepted and not yet released;
an accept is called only when there is none, a read or a release is called only on the one
such handle; and after the iterations the handles accepted and not yet released are exactly
the client socket held, zero or one. -/
theorem C10_one_client (EAGAIN : Int) (g : Globals) (buf : List Nat) (dev : InputDev)
    (envs : List IterEnv) :
    (∀ (pre post : List SockOp) (op : SockOp),
      (rx_loop EAGAIN g ⟨none, buf, dev, []⟩ envs).log = pre ++ op :: post →
        (live_handles [] pre).length ≤ 1 ∧
        (∀ r s, op = SockOp.accept r s → live_handles [] pre = []) ∧
        (∀ s len, op = SockOp.recvmsg s len → live_handles [] pre = [s]) ∧
        (∀ s, op = SockOp.release s → live_handles [] pre = [s])) ∧
    live_handles [] (rx_loop EAGAIN g ⟨none, buf, dev, []⟩ envs).log =
      (rx_loop EAGAIN g ⟨none, buf, dev, []⟩ envs).client_sock.toList ∧
    (live_handles [] (rx_loop EAGAIN g ⟨none, buf, dev, []⟩ envs).log).length ≤ 1 := by
  have hinv := loopInv_loop EAGAIN g _ _ envs _ (loopInv_init ⟨none, buf, dev, []⟩)
  obtain ⟨new, hnew, hok, hlive⟩ := hinv
  simp only [List.nil_append, Option.toList] at hnew hok hlive
  rw [hnew]
  refine ⟨?_, hlive, ?_⟩
  · intro pre post op hsplit
    rw [hsplit] at hok
    have hat := trace_ok_at [] pre post op hok
    refine ⟨hat.2, ?_, ?_, ?_⟩
    · intro r s hop; subst hop; exact hat.1
    · intro s len hop; subst hop; exact hat.1
    · intro s hop; subst hop; exact hat.1
  · rw [hlive]
    cases (rx_loop EAGAIN g ⟨none, buf, dev, []⟩ envs).client_sock <;> simp

theorem C10_one_client_witness :
    live_handles []
      (rx_loop 11 ⟨65536, 0⟩ ⟨none, [0, 0, 0, 0, 0], [], []⟩
        [⟨0, 7, 0, []⟩, ⟨0, 8, 2, [1, 2]⟩]).log = [8] := by
  rw [(C10_one_client 11 ⟨65536, 0⟩ [0, 0, 0, 0, 0] []
    [⟨0, 7, 0, []⟩, ⟨0, 8, 2, [1, 2]⟩]).2.1]
  decide

/-! ## Reads that carry no frame -/

theorem rx_accept_dev (st : RxState) (env : IterEnv) : (rx_accept st env).dev = st.dev := by
  unfold rx_accept
  cases st.client_sock with
  | some s => rfl
  | none => by_cases h : env.accept_r = 0 <;> simp [h]

theorem rx_recv_dev_of_short (EAGAIN : Int) (g : Globals) (st : RxState) (sock : Nat)
    (env : IterEnv) (h : env.recv_len = -EAGAIN ∨ env.recv_len < 5) :
    (rx_recv EAGAIN g st sock env).dev = st.dev := by
  unfold rx_recv
  by_cases h1 : env.recv_len = -EAGAIN
  · simp [h1]
  · by_cases h2 : env.recv_len ≤ 0
    · simp [h1, h2]
    · have h3 : env.recv_len < 5 := by
        rcases h with h | h
        · exact absurd h h1
        · exact h
      simp [h1, h2, h3]

theorem rx_recv_client_of_open (EAGAIN : Int) (g : Globals) (st : RxState) (sock : Nat)
    (env : IterEnv) (h : env.recv_len = -EAGAIN ∨ 0 < env.recv_len) :
    (rx_recv EAGAIN g st sock env).client_sock = st.client_sock := by
  unfold rx_recv
  by_cases h1 : env.recv_len = -EAGAIN
  · simp [h1]
  · have h2 : ¬ env.recv_len ≤ 0 := by
      rcases h with h | h
      · exact absurd h h1
      · omega
    by_cases h3 : env.recv_len < 5 <;> simp [h1, h2, h3]

/-- C11: when the read of a loop iteration returns `n` bytes with `0 < n < 5`, whatever bytes
were received and whatever the buffer held, the iteration reports nothing on the input device,
keeps the client handle it read from and calls no `sock_release`; this holds both when the
client was held at the start of the iteration and when it was accepted in that iteration. -/
theorem C11_short_read_discarded (EAGAIN : Int) (g : Globals) (st : RxState) (sock : Nat)
    (env : IterEnv) (hc : (rx_accept st env).client_sock = some sock)
    (hpos : 0 < env.recv_len) (hlt : env.recv_len < 5) :
    (rx_iteration EAGAIN g st env).dev = st.dev ∧
    (rx_iteration EAGAIN g st env).client_sock = some sock ∧
    (st.client_sock = some sock →
      (rx_iteration EAGAIN g st env).client_sock = st.client_sock) ∧
    (∀ s, SockOp.release s ∈ (rx_iteration EAGAIN g st env).log → SockOp.release s ∈ st.log) := by
  have hit : rx_iteration EAGAIN g st env = rx_recv EAGAIN g (rx_accept st env) sock env := by
    simp [rx_iteration, hc]
  have hdev : (rx_iteration EAGAIN g st env).dev = st.dev := by
    rw [hit, rx_recv_dev_of_short EAGAIN g _ sock env (Or.inr hlt), rx_accept_dev]
  have hcl : (rx_iteration EAGAIN g st env).client_sock = some sock := by
    rw [hit, rx_recv_client_of_open EAGAIN g _ sock env (Or.inr hpos), hc]
  refine ⟨hdev, hcl, ?_, ?_⟩
  · intro h; rw [hcl, h]
  · intro s hs
    rw [hit] at hs
    have h2 : ¬ env.recv_len ≤ 0 := by omega
    have hacc : SockOp.release s ∈ (rx_accept st env).log → SockOp.release s ∈ st.log := by
      unfold rx_accept
      cases st.client_sock with
      | some s' => exact id
      | none => by_cases h : env.accept_r = 0 <;> simp [h]
    apply hacc
    unfold rx_recv at hs
    by_cases h1 : env.recv_len = -EAGAIN
    · simpa [h1] using hs
    · simpa [h1, h2, hlt] using hs

theorem C11_short_read_discarded_witness :
    (rx_iteration 11 ⟨65536, 0⟩ ⟨some 7, [9, 9, 9, 9, 9], [], []⟩ ⟨0, 0, 3, [1, 2, 3]⟩).dev = [] ∧
    (rx_iteration 11 ⟨65536, 0⟩ ⟨some 7, [9, 9, 9, 9, 9], [], []⟩
      ⟨0, 0, 3, [1, 2, 3]⟩).client_sock = some 7 := by
  have h := C11_short_read_discarded 11 ⟨65536, 0⟩ ⟨some 7, [9, 9, 9, 9, 9], [], []⟩ 7
    ⟨0, 0, 3, [1, 2, 3]⟩ rfl (by decide) (by decide)
  exact ⟨h.1, h.2.1⟩

/-- C12: a loop iteration that starts with no client and whose accept does not succeed
reports nothing on the input device; and a loop iteration reports something on the input
device only if it held a client at its read and that read returned a full frame (at least 5,
hence exactly the 5 bytes asked for), so that would-block, closed and partial reads report
nothing. -/
theorem C12_inert_without_frame (EAGAIN : Int) (g : Globals) (st : RxState) (env : IterEnv) :
    (st.client_sock = none → env.accept_r ≠ 0 →
      (rx_iteration EAGAIN g st env).dev = st.dev ∧
      (rx_iteration EAGAIN g st env).client_sock = none) ∧
    ((rx_iteration EAGAIN g st env).dev ≠ st.dev →
      (∃ sock, (rx_accept st env).client_sock = some sock) ∧
      env.recv_len ≠ -EAGAIN ∧ 5 ≤ env.recv_len ∧ (env.recv_len ≤ 5 → env.recv_len = 5)) ∧
    (env.recv_len = -EAGAIN ∨ env.recv_len ≤ 0 ∨ env.recv_len < 5 →
      (rx_iteration EAGAIN g st env).dev = st.dev) := by
  have hshort : env.recv_len = -EAGAIN ∨ env.recv_len < 5 →
      (rx_iteration EAGAIN g st env).dev = st.dev := by
    intro h
    unfold rx_iteration
    cases hc : (rx_accept st env).client_sock with
    | none => simp only [hc]; exact rx_accept_dev st env
    | some sock =>
      simp only [hc]
      rw [rx_recv_dev_of_short EAGAIN g _ sock env h, rx_accept_dev]
  refine ⟨?_, ?_, ?_⟩
  · intro h0 hr
    have hacc : (rx_accept st env).client_sock = none := by simp [rx_accept, h0, hr]
    constructor
    · simp only [rx_iteration, hacc]; exact rx_accept_dev st env
    · simp only [rx_iteration, hacc]
  · intro hne
    have h1 : env.recv_len ≠ -EAGAIN := fun h => hne (hshort (Or.inl h))
    have h5 : 5 ≤ env.recv_len := by
      by_contra hlt
      exact hne (hshort (Or.inr (by omega)))
    refine ⟨?_, h1, h5, fun h => by omega⟩
    cases hc : (rx_accept st env).client_sock with
    | some sock => exact ⟨sock, rfl⟩
    | none =>
      exfalso
      apply hne
      simp only [rx_iteration, hc]
      exact rx_accept_dev st env
  · intro h
    apply hshort
    rcases h with h | h | h
    · exact Or.inl h
    · exact Or.inr (by omega)
    · exact Or.inr h

theorem C12_inert_without_frame_witness :
    (rx_iteration 11 ⟨65536, 0⟩ ⟨none, [1, 0, 5, 0, 0], [], []⟩ ⟨-11, 0, 5, [1, 0, 5, 0, 0]⟩).dev
      = [] :=
  ((C12_inert_without_frame 11 ⟨65536, 0⟩ ⟨none, [1, 0, 5, 0, 0], [], []⟩
    ⟨-11, 0, 5, [1, 0, 5, 0, 0]⟩).1 rfl (by decide)).1

/-! ## Module load and unload -/

theorem pm_init_ops (EINVAL ENOMEM speed_pct interp_steps : Int) (env : InitEnv)
    (st : ModState) :
    ∃ new, (pm_init EINVAL ENOMEM speed_pct interp_steps env st).2.ops = st.ops ++ new ∧
      ∀ op ∈ new, is_release op = false := by
  unfold pm_init
  by_cases h0 : interp_steps < 0
  · exact ⟨[], by simp [h0], by simp⟩
  · by_cases h1 : env.input_dev = none
    · exact ⟨[ModOp.input_allocate_device env.input_dev], by simp [h0, h1],
        by simp [is_release]⟩
    · by_cases h2 : env.register_err = 0
      · by_cases h3 : env.sock_create_err < 0
        · exact ⟨[ModOp.input_allocate_device env.input_dev,
              ModOp.input_register_device env.register_err,
              ModOp.sock_create_kern env.sock_create_err env.new_listen_sock],
            by simp [h0, h1, h2, h3], by simp [is_release]⟩
        · by_cases h4 : env.bind_err < 0
          · exact ⟨[ModOp.input_allocate_device env.input_dev,
                ModOp.input_register_device env.register_err,
                ModOp.sock_create_kern env.sock_create_err env.new_listen_sock,
                ModOp.bind env.bind_err],
              by simp [h0, h1, h2, h3, h4], by simp [is_release]⟩
          · by_cases h5 : env.listen_err < 0
            · exact ⟨[ModOp.input_allocate_device env.input_dev,
                  ModOp.input_register_device env.register_err,
                  ModOp.sock_create_kern env.sock_create_err env.new_listen_sock,
                  ModOp.bind env.bind_err, ModOp.listen env.listen_err],
                by simp [h0, h1, h2, h3, h4, h5], by simp [is_release]⟩
            · refine ⟨[ModOp.input_allocate_device env.input_dev,
                  ModOp.input_register_device env.register_err,
                  ModOp.sock_create_kern env.sock_create_err env.new_listen_sock,
                  ModOp.bind env.bind_err, ModOp.listen env.listen_err,
                  ModOp.kthread_run env.thread], ?_, by simp [is_release]⟩
              by_cases h6 : IS_ERR env.thread = true <;> simp [h0, h1, h2, h3, h4, h5, h6]
      · exact ⟨[ModOp.input_allocate_device env.input_dev,
            ModOp.input_register_device env.register_err],
          by simp [h0, h1, h2], by simp [is_release]⟩

/-- C13: for every `interp_steps < 0` and every `speed_pct`, `pm_init` returns `-EINVAL`
having made no call at all (no input device allocated or registered, no socket created, no
worker started) and having changed no variable; for `interp_steps >= 0` the check passes:
`pm_init` goes on to allocate the input device, and returns 0 when every later step
succeeds. -/
theorem C13_negative_steps_rejected (EINVAL ENOMEM speed_pct interp_steps : Int)
    (env : InitEnv) (st : ModState) :
    (interp_steps < 0 →
      pm_init EINVAL ENOMEM speed_pct interp_steps env st = (-EINVAL, st) ∧
      (pm_init EINVAL ENOMEM speed_pct interp_steps env st).2.ops = st.ops) ∧
    (0 ≤ interp_steps →
      (∃ rest, (pm_init EINVAL ENOMEM speed_pct interp_steps env st).2.ops =
        st.ops ++ ModOp.input_allocate_device env.input_dev :: rest) ∧
      (env.input_dev ≠ none → env.register_err = 0 → 0 ≤ env.sock_create_err →
        0 ≤ env.bind_err → 0 ≤ env.listen_err → IS_ERR env.thread = false →
        (pm_init EINVAL ENOMEM speed_pct interp_steps env st).1 = 0)) := by
  constructor
  · intro h
    simp [pm_init, h]
  · intro h
    have h0 : ¬ interp_steps < 0 := by omega
    constructor
    · unfold pm_init
      by_cases h1 : env.input_dev = none
      · exact ⟨[], by simp [h0, h1]⟩
      · by_cases h2 : env.register_err = 0
        · by_cases h3 : env.sock_create_err < 0
          · exact ⟨_, by simp [h0, h1, h2, h3]; rfl⟩
          · by_cases h4 : env.bind_err < 0
            · exact ⟨_, by simp [h0, h1, h2, h3, h4]; rfl⟩
            · by_cases h5 : env.listen_err < 0
              · exact ⟨_, by simp [h0, h1, h2, h3, h4, h5]; rfl⟩
              · by_cases h6 : IS_ERR env.thread = true
                · exact ⟨_, by simp [h0, h1, h2, h3, h4, h5, h6]; rfl⟩
                · exact ⟨_, by simp [h0, h1, h2, h3, h4, h5, h6]; rfl⟩
        · exact ⟨_, by simp [h0, h1, h2]; rfl⟩
    · intro h1 h2 h3 h4 h5 h6
      have h3' : ¬ env.sock_create_err < 0 := by omega
      have h4' : ¬ env.bind_err < 0 := by omega
      have h5' : ¬ env.listen_err < 0 := by omega
      simp [pm_init, h0, h1, h2, h3', h4', h5', h6]

theorem C13_negative_steps_rejected_witness :
    pm_init 22 12 100 (-1) ⟨some 1, 0, 0, 5, 0, 0, TaskPtr.task 9⟩ mod_initial =
      (-22, mod_initial) ∧
    (pm_init 22 12 100 0 ⟨some 1, 0, 0, 5, 0, 0, TaskPtr.task 9⟩ mod_initial).1 = 0 := by
  have h := C13_negative_steps_rejected 22 12 100 (-1) ⟨some 1, 0, 0, 5, 0, 0, TaskPtr.task 9⟩
    mod_initial
  have h' := C13_negative_steps_rejected 22 12 100 0 ⟨some 1, 0, 0, 5, 0, 0, TaskPtr.task 9⟩
    mod_initial
  exact ⟨(h.1 (by decide)).1,
    (h'.2 (by decide)).2 (by decide) rfl (by decide) (by decide) (by decide) rfl⟩

theorem pm_init_failure_paths (EINVAL ENOMEM speed_pct interp_steps : Int) (env : InitEnv)
    (st : ModState) (hn : 0 ≤ interp_steps) :
    (env.input_dev = none →
      (pm_init EINVAL ENOMEM speed_pct interp_steps env st).1 = -ENOMEM ∧
      (pm_init EINVAL ENOMEM speed_pct interp_steps env st).2.ops =
        st.ops ++ [ModOp.input_allocate_device none]) ∧
    (env.input_dev ≠ none → env.register_err ≠ 0 →
      (pm_init EINVAL ENOMEM speed_pct interp_steps env st).1 = env.register_err ∧
      (pm_init EINVAL ENOMEM speed_pct interp_steps env st).2.pm_input_dev = env.input_dev ∧
      (pm_init EINVAL ENOMEM speed_pct interp_steps env st).2.ops =
        st.ops ++ [ModOp.input_allocate_device env.input_dev,
                   ModOp.input_register_device env.register_err]) ∧
    (env.input_dev ≠ none → env.register_err = 0 → env.sock_create_err < 0 →
      (pm_init EINVAL ENOMEM speed_pct interp_steps env st).1 = env.sock_create_err ∧
      (pm_init EINVAL ENOMEM speed_pct interp_steps env st).2.pm_input_dev = env.input_dev ∧
      (pm_init EINVAL ENOMEM speed_pct interp_steps env st).2.ops =
        st.ops ++ [ModOp.input_allocate_device env.input_dev,
                   ModOp.input_register_device 0,
                   ModOp.sock_create_kern env.sock_create_err env.new_listen_sock]) ∧
    (env.input_dev ≠ none → env.register_err = 0 → 0 ≤ env.sock_create_err →
      env.bind_err < 0 →
      (pm_init EINVAL ENOMEM speed_pct interp_steps env st).1 = env.bind_err ∧
      (pm_init EINVAL ENOMEM speed_pct interp_steps env st).2.pm_input_dev = env.input_dev ∧
      (pm_init EINVAL ENOMEM speed_pct interp_steps env st).2.listen_sock =
        some env.new_listen_sock ∧
      (pm_init EINVAL ENOMEM speed_pct interp_steps env st).2.ops =
        st.ops ++ [ModOp.input_allocate_device env.input_dev,
                   ModOp.input_register_device 0,
                   ModOp.sock_create_kern env.sock_create_err env.new_listen_sock,
                   ModOp.bind env.bind_err]) ∧
    (env.input_dev ≠ none → env.register_err = 0 → 0 ≤ env.sock_create_err →
      0 ≤ env.bind_err → env.listen_err < 0 →
      (pm_init EINVAL ENOMEM speed_pct interp_steps env st).1 = env.listen_err ∧
      (pm_init EINVAL ENOMEM speed_pct interp_steps env st).2.pm_input_dev = env.input_dev ∧
      (pm_init EINVAL ENOMEM speed_pct interp_steps env st).2.listen_sock =
        some env.new_listen_sock ∧
      (pm_init EINVAL ENOMEM speed_pct interp_steps env st).2.ops =
        st.ops ++ [ModOp.input_allocate_device env.input_dev,
                   ModOp.input_register_device 0,
                   ModOp.sock_create_kern env.sock_create_err env.new_listen_sock,
                   ModOp.bind env.bind_err, ModOp.listen env.listen_err]) ∧
    (env.input_dev ≠ none → env.register_err = 0 → 0 ≤ env.sock_create_err →
      0 ≤ env.bind_err → 0 ≤ env.listen_err → IS_ERR env.thread = true →
      (pm_init EINVAL ENOMEM speed_pct interp_steps env st).1 = PTR_ERR env.thread ∧
      (pm_init EINVAL ENOMEM speed_pct interp_steps env st).2.pm_input_dev = env.input_dev ∧
      (pm_init EINVAL ENOMEM speed_pct interp_steps env st).2.listen_sock =
        some env.new_listen_sock ∧
      (pm_init EINVAL ENOMEM speed_pct interp_steps env st).2.ops =
        st.ops ++ [ModOp.input_allocate_device env.input_dev,
                   ModOp.input_register_device 0,
                   ModOp.sock_create_kern env.sock_create_err env.new_listen_sock,
                   ModOp.bind env.bind_err, ModOp.listen env.listen_err,
                   ModOp.kthread_run env.thread]) := by
  have h0 : ¬ interp_steps < 0 := by omega
  refine ⟨?_, ?_, ?_, ?_, ?_, ?_⟩
  · intro h1
    simp [pm_init, h0, h1]
  · intro h1 h2
    simp [pm_init, h0, h1, h2]
  · intro h1 h2 h3
    simp [pm_init, h0, h1, h2, h3]
  · intro h1 h2 h3 h4
    have h3' : ¬ env.sock_create_err < 0 := by omega
    simp [pm_init, h0, h1, h2, h3', h4]
  · intro h1 h2 h3 h4 h5
    have h3' : ¬ env.sock_create_err < 0 := by omega
    have h4' : ¬ env.bind_err < 0 := by omega
    simp [pm_init, h0, h1, h2, h3', h4', h5]
  · intro h1 h2 h3 h4 h5 h6
    have h3' : ¬ env.sock_create_err < 0 := by omega
    have h4' : ¬ env.bind_err < 0 := by omega
    have h5' : ¬ env.listen_err < 0 := by omega
    simp [pm_init, h0, h1, h2, h3', h4', h5', h6]

/-- C14: the claim that a failing `pm_init` leaves no input device registered and no
listening socket open fails in the driver. Run from the initial state with `ENOMEM = 12`: a
failed allocation returns -12 after that one call; a failed registration (-16) returns with
the device still allocated; a failed socket creation (-97) returns with the device still
registered; a failed `bind` (-98), a failed `listen` (-95) and a failed worker start (-12)
each return the error at once with the device still registered and the listening socket
still open. In every case the calls made stop at the failing one and none gives a resource
back. -/
theorem C14_init_failure_leaks :
    (pm_init 22 12 100 0 ⟨none, 0, 0, 5, 0, 0, TaskPtr.task 9⟩ mod_initial).1 = -12 ∧
    (pm_init 22 12 100 0 ⟨none, 0, 0, 5, 0, 0, TaskPtr.task 9⟩ mod_initial).2.ops =
      [ModOp.input_allocate_device none] ∧
    (pm_init 22 12 100 0 ⟨some 1, -16, 0, 5, 0, 0, TaskPtr.task 9⟩ mod_initial).1 = -16 ∧
    (pm_init 22 12 100 0 ⟨some 1, -16, 0, 5, 0, 0, TaskPtr.task 9⟩ mod_initial).2.pm_input_dev =
      some 1 ∧
    (pm_init 22 12 100 0 ⟨some 1, -16, 0, 5, 0, 0, TaskPtr.task 9⟩ mod_initial).2.ops =
      [ModOp.input_allocate_device (some 1), ModOp.input_register_device (-16)] ∧
    (pm_init 22 12 100 0 ⟨some 1, 0, -97, 5, 0, 0, TaskPtr.task 9⟩ mod_initial).1 = -97 ∧
    (pm_init 22 12 100 0 ⟨some 1, 0, -97, 5, 0, 0, TaskPtr.task 9⟩ mod_initial).2.ops =
      [ModOp.input_allocate_device (some 1), ModOp.input_register_device 0,
       ModOp.sock_create_kern (-97) 5] ∧
    dev_registered
      (pm_init 22 12 100 0 ⟨some 1, 0, -97, 5, 0, 0, TaskPtr.task 9⟩ mod_initial).2.ops = true ∧
    (pm_init 22 12 100 0 ⟨some 1, 0, 0, 5, -98, 0, TaskPtr.task 9⟩ mod_initial).1 = -98 ∧
    (pm_init 22 12 100 0 ⟨some 1, 0, 0, 5, -98, 0, TaskPtr.task 9⟩ mod_initial).2.ops =
      [ModOp.input_allocate_device (some 1), ModOp.input_register_device 0,
       ModOp.sock_create_kern 0 5, ModOp.bind (-98)] ∧
    dev_registered
      (pm_init 22 12 100 0 ⟨some 1, 0, 0, 5, -98, 0, TaskPtr.task 9⟩ mod_initial).2.ops = true ∧
    open_socks
      (pm_init 22 12 100 0 ⟨some 1, 0, 0, 5, -98, 0, TaskPtr.task 9⟩ mod_initial).2.ops = [5] ∧
    (pm_init 22 12 100 0 ⟨some 1, 0, 0, 5, -98, 0, TaskPtr.task 9⟩ mod_initial).2.listen_sock =
      some 5 ∧
    (pm_init 22 12 100 0 ⟨some 1, 0, 0, 5, 0, -95, TaskPtr.task 9⟩ mod_initial).1 = -95 ∧
    (pm_init 22 12 100 0 ⟨some 1, 0, 0, 5, 0, -95, TaskPtr.task 9⟩ mod_initial).2.ops =
      [ModOp.input_allocate_device (some 1), ModOp.input_register_device 0,
       ModOp.sock_create_kern 0 5, ModOp.bind 0, ModOp.listen (-95)] ∧
    dev_registered
      (pm_init 22 12 100 0 ⟨some 1, 0, 0, 5, 0, -95, TaskPtr.task 9⟩ mod_initial).2.ops = true ∧
    open_socks
      (pm_init 22 12 100 0 ⟨some 1, 0, 0, 5, 0, -95, TaskPtr.task 9⟩ mod_initial).2.ops = [5] ∧
    (pm_init 22 12 100 0 ⟨some 1, 0, 0, 5, 0, 0, TaskPtr.err (-12)⟩ mod_initial).1 = -12 ∧
    (pm_init 22 12 100 0 ⟨some 1, 0, 0, 5, 0, 0, TaskPtr.err (-12)⟩ mod_initial).2.ops =
      [ModOp.input_allocate_device (some 1), ModOp.input_register_device 0,
       ModOp.sock_create_kern 0 5, ModOp.bind 0, ModOp.listen 0,
       ModOp.kthread_run (TaskPtr.err (-12))] ∧
    dev_registered
      (pm_init 22 12 100 0 ⟨some 1, 0, 0, 5, 0, 0, TaskPtr.err (-12)⟩ mod_initial).2.ops
        = true ∧
    open_socks
      (pm_init 22 12 100 0 ⟨some 1, 0, 0, 5, 0, 0, TaskPtr.err (-12)⟩ mod_initial).2.ops
        = [5] := by
  decide

/-- C17 as stated fails: with a worker, a client socket and a listening socket, `pm_exit`
stops the worker first and releases the two sockets after it. -/
theorem C17_join_precedes_releases :
    (pm_exit ⟨65536, some 1, some 5, some 7, TaskPtr.task 9, []⟩).ops =
      [ModOp.kthread_stop (TaskPtr.task 9), ModOp.sock_release 7, ModOp.sock_release 5,
       ModOp.input_unregister_device] ∧
    ¬ (∃ pre post, (pm_exit ⟨65536, some 1, some 5, some 7, TaskPtr.task 9, []⟩).ops =
        pre ++ ModOp.kthread_stop (TaskPtr.task 9) :: post ∧
        ModOp.sock_release 7 ∈ pre ∧ ModOp.sock_release 5 ∈ pre) := by
  have hops : (pm_exit ⟨65536, some 1, some 5, some 7, TaskPtr.task 9, []⟩).ops =
      [ModOp.kthread_stop (TaskPtr.task 9), ModOp.sock_release 7, ModOp.sock_release 5,
       ModOp.input_unregister_device] := by decide
  refine ⟨hops, ?_⟩
  rintro ⟨pre, post, h, h7, _⟩
  rw [hops] at h
  cases pre with
  | nil => exact absurd h7 (List.not_mem_nil _)
  | cons x xs =>
    simp only [List.cons_append, List.cons.injEq] at h
    obtain ⟨hx, hrest⟩ := h
    have hmem : ModOp.kthread_stop (TaskPtr.task 9) ∈
        [ModOp.sock_release 7, ModOp.sock_release 5, ModOp.input_unregister_device] := by
      rw [hrest]; simp
    simp at hmem

/-- C17 amended: `pm_exit` performs its actions in the order: stop (join) the worker if
`rx_thread` is set, then release the client socket if one is held, then release the listening
socket if there is one, then unregister the input device; the worker is stopped before either
socket is released. -/
theorem C17_exit_order (st : ModState) :
    (pm_exit st).ops =
      st.ops ++ (if st.rx_thread ≠ TaskPtr.null then [ModOp.kthread_stop st.rx_thread] else [])
        ++ st.client_sock.toList.map ModOp.sock_release
        ++ st.listen_sock.toList.map ModOp.sock_release
        ++ [ModOp.input_unregister_device] := by
  unfold pm_exit
  by_cases ht : st.rx_thread = TaskPtr.null <;>
    cases hc : st.client_sock <;> cases hl : st.listen_sock <;> simp [ht, hc, hl]

/-! ## Buttons byte and speed sign -/

theorem shiftRight_16 (p : Int) : p >>> (16 : Int) = p / 65536 := by
  have hc : p >>> (16 : Int) = p >>> (16 : Nat) := by
    cases p with
    | ofNat m => exact Int.shiftRight_coe_nat m 16
    | negSucc m => exact Int.shiftRight_negSucc m 16
  rw [hc, Int.shiftRight_eq_div_pow]
  simp

theorem scale_of_no_overflow (m d : Int) (hlo : -2147483648 ≤ d * m)
    (hhi : d * m ≤ 2147483647) : scale m d = d * m / 65536 := by
  unfold scale
  rw [wrap_s32_of_range _ hlo hhi, shiftRight_16]
  generalize d * m = p at *
  apply wrap_s16_of_range <;> omega

theorem decode_s16_range (hi lo : Nat) :
    -32768 ≤ decode_s16 hi lo ∧ decode_s16 hi lo ≤ 32767 := by
  unfold decode_s16 wrap_s16
  omega

/-- C15: the sign rule fails in the driver: at `speed_pct = 200` the positive deltas 32767 and
16384 are scaled to the negative values -2 and -32768, and at `speed_pct = -100` the negative
delta -32768 stays negative (-32768) instead of being inverted. -/
theorem C15_sign_not_kept :
    scale (pm_init_speed_mult 200) 32767 = -2 ∧ (0 : Int) < 200 * 32767 ∧
    scale (pm_init_speed_mult 200) 16384 = -32768 ∧ (0 : Int) < 200 * 16384 ∧
    scale (pm_init_speed_mult (-100)) (-32768) = -32768 ∧ (0 : Int) < -100 * -32768 := by
  decide

/-- C16: bits 2..7 of the buttons byte are ignored: `handle_buttons` reports the same events
for `b` and for `b AND 0x03`; a byte whose bits 0 and 1 are clear reports no event. -/
theorem C16_high_bits_ignored (dev : InputDev) (b : Nat) :
    handle_buttons dev b = handle_buttons dev (b &&& 0x03) ∧
    (b &&& 0x03 = 0 → handle_buttons dev b = dev) ∧
    (b.testBit 0 = false → b.testBit 1 = false → handle_buttons dev b = dev) := by
  have t0 : Nat.testBit 3 0 = true := by decide
  have t1 : Nat.testBit 3 1 = true := by decide
  have hmask : handle_buttons dev b = handle_buttons dev (b &&& 0x03) := by
    rw [handle_buttons_eq dev b, handle_buttons_eq dev (b &&& 0x03)]
    simp only [Nat.testBit_and, t0, t1, Bool.and_true]
  have hzero : handle_buttons dev 0 = dev := by
    rw [handle_buttons_eq]; simp
  refine ⟨hmask, ?_, ?_⟩
  · intro h
    rw [hmask, h, hzero]
  · intro h0 h1
    rw [handle_buttons_eq, h0, h1]
    simp

/-! ## Unit speed and interpolation totals -/

/-- C19: at the default `speed_pct = 100` the multiplier is 65536 and scaling is the
identity: for every 16-bit delta `d`, -32768 and 32767 included, the product `d * 65536` stays
inside the 32-bit range and the shifted result stored in the `s16` is `d`; so with
`interp_steps = 0` a full frame reports exactly its decoded `dx` and `dy`. -/
theorem C19_unit_speed_identity (d : Int) (hlo : -32768 ≤ d) (hhi : d ≤ 32767)
    (dev : InputDev) (b0 b1 b2 b3 b4 : Nat) :
    pm_init_speed_mult 100 = 65536 ∧
    wrap_s32 (d * 65536) = d * 65536 ∧
    scale (pm_init_speed_mult 100) d = d ∧
    process_frame ⟨pm_init_speed_mult 100, 0⟩ dev [b0, b1, b2, b3, b4] =
      handle_buttons dev b0 ++
        [InputEvent.rel RelCode.REL_X (decode_s16 b1 b2),
         InputEvent.rel RelCode.REL_Y (decode_s16 b3 b4), InputEvent.sync] := by
  have hm : pm_init_speed_mult 100 = 65536 := by decide
  have hid : ∀ x : Int, -32768 ≤ x → x ≤ 32767 → scale 65536 x = x := by
    intro x h1 h2
    rw [scale_of_no_overflow 65536 x (by omega) (by omega)]
    omega
  refine ⟨hm, wrap_s32_of_range _ (by omega) (by omega), ?_, ?_⟩
  · rw [hm]; exact hid d hlo hhi
  · have r1 := decode_s16_range b1 b2
    have r2 := decode_s16_range b3 b4
    simp only [process_frame, handle_movement, List.getD_cons_zero, List.getD_cons_succ]
    rw [hm, hid _ r1.1 r1.2, hid _ r2.1 r2.2]
    exact emit_motion_nonpos 0 _ _ _ (by decide)

theorem C19_unit_speed_identity_witness :
    scale (pm_init_speed_mult 100) (-32768) = -32768 :=
  (C19_unit_speed_identity (-32768) (by decide) (by decide) [] 0 0 0 0 0).2.2.1

theorem rel_total_steps (k : Nat) (sx sy : Int) :
    rel_total RelCode.REL_X (List.replicate k (rel_step sx sy)).flatten = k * sx ∧
    rel_total RelCode.REL_Y (List.replicate k (rel_step sx sy)).flatten = k * sy := by
  have hstepX : ∀ rest, rel_total RelCode.REL_X (rel_step sx sy ++ rest) =
      sx + rel_total RelCode.REL_X rest := by
    intro rest; simp [rel_step, rel_total]
  have hstepY : ∀ rest, rel_total RelCode.REL_Y (rel_step sx sy ++ rest) =
      sy + rel_total RelCode.REL_Y rest := by
    intro rest; simp [rel_step, rel_total]
  induction k with
  | zero => simp [rel_total]
  | succ k ih =>
    simp only [List.replicate_succ, List.flatten_cons]
    rw [hstepX, hstepY, ih.1, ih.2]
    constructor <;> push_cast <;> ring

theorem tdiv_total_bounds (n dx : Int) (hn : 0 < n) :
    (0 ≤ dx → 0 ≤ n * Int.tdiv dx n ∧ n * Int.tdiv dx n ≤ dx ∧ dx - n * Int.tdiv dx n < n) ∧
    (dx ≤ 0 → n * Int.tdiv dx n ≤ 0 ∧ dx ≤ n * Int.tdiv dx n ∧
      n * Int.tdiv dx n - dx < n) := by
  constructor
  · intro h
    have hq := Int.tdiv_nonneg h (Int.le_of_lt hn)
    have hr0 := Int.tmod_nonneg n h
    have hr1 := Int.tmod_lt_of_pos dx hn
    have he := Int.tdiv_add_tmod dx n
    have hp : 0 ≤ n * Int.tdiv dx n := Int.mul_nonneg (Int.le_of_lt hn) hq
    generalize n * Int.tdiv dx n = t at *
    omega
  · intro h
    have h' : 0 ≤ -dx := by omega
    have hq := Int.tdiv_nonneg h' (Int.le_of_lt hn)
    have hr0 := Int.tmod_nonneg n h'
    have hr1 := Int.tmod_lt_of_pos (-dx) hn
    have he := Int.tdiv_add_tmod (-dx) n
    have hneg : Int.tdiv dx n = -Int.tdiv (-dx) n := by
      rw [Int.neg_tdiv, Int.neg_neg]
    have hp : 0 ≤ n * Int.tdiv (-dx) n := Int.mul_nonneg (Int.le_of_lt hn) hq
    rw [hneg, Int.mul_neg]
    generalize n * Int.tdiv (-dx) n = t at *
    omega

/-- C20: with `interp_steps = n > 0` the total reported on the X axis over the `n` steps is
`n * (dx / n)` (division truncating toward zero); it is 0 or has the sign of `dx`, its
absolute value is at most that of `dx`, it misses `dx` by less than `n`, it equals `dx`
exactly when `n` divides `dx`, and when `|dx| < n` every step is 0 and nothing is moved. -/
theorem C20_interp_no_overshoot (n dx dy : Int) (dev : InputDev) (hn : 0 < n) :
    rel_total RelCode.REL_X ((emit_motion n dev dx dy).drop dev.length) = n * Int.tdiv dx n ∧
    (0 < n * Int.tdiv dx n → 0 < dx) ∧ (n * Int.tdiv dx n < 0 → dx < 0) ∧
    |n * Int.tdiv dx n| ≤ |dx| ∧ |dx - n * Int.tdiv dx n| < n ∧
    (n * Int.tdiv dx n = dx ↔ n ∣ dx) ∧
    (|dx| < n → Int.tdiv dx n = 0 ∧
      rel_total RelCode.REL_X ((emit_motion n dev dx dy).drop dev.length) = 0) := by
  have htot : rel_total RelCode.REL_X ((emit_motion n dev dx dy).drop dev.length) =
      n * Int.tdiv dx n := by
    rw [emit_motion_pos n dev dx dy hn, List.drop_left, (rel_total_steps _ _ _).1,
      Int.toNat_of_nonneg (Int.le_of_lt hn)]
  have hb := tdiv_total_bounds n dx hn
  have he := Int.tdiv_add_tmod dx n
  have hzero : |dx| < n → Int.tdiv dx n = 0 := by
    intro h
    have h2 := abs_lt.mp h
    rcases le_total 0 dx with h0 | h0
    · exact Int.tdiv_eq_zero_of_lt h0 h2.2
    · have : Int.tdiv (-dx) n = 0 := Int.tdiv_eq_zero_of_lt (by omega) (by omega)
      have hneg : Int.tdiv dx n = -Int.tdiv (-dx) n := by rw [Int.neg_tdiv, Int.neg_neg]
      rw [hneg, this]; rfl
  refine ⟨htot, ?_, ?_, ?_, ?_, ?_, ?_⟩
  · intro h
    rcases le_total 0 dx with h0 | h0
    · have := hb.1 h0; omega
    · have := hb.2 h0; omega
  · intro h
    rcases le_total 0 dx with h0 | h0
    · have := hb.1 h0; omega
    · have := hb.2 h0; omega
  · rcases le_total 0 dx with h0 | h0
    · have := hb.1 h0
      rw [abs_of_nonneg this.1, abs_of_nonneg h0]; exact this.2.1
    · have := hb.2 h0
      rw [abs_of_nonpos this.1, abs_of_nonpos h0]; omega
  · rw [abs_lt]
    rcases le_total 0 dx with h0 | h0
    · have := hb.1 h0; omega
    · have := hb.2 h0; omega
  · constructor
    · intro h; exact ⟨Int.tdiv dx n, h.symm⟩
    · intro h
      have hm := Int.tmod_eq_zero_of_dvd h
      rw [hm] at he
      simpa using he
  · intro h
    have hq := hzero h
    refine ⟨hq, ?_⟩
    rw [htot, hq]; simp

theorem C20_interp_no_overshoot_witness :
    rel_total RelCode.REL_X ((emit_motion 3 [] 10 (-7)).drop 0) = 3 * Int.tdiv 10 3 ∧
    |(10 : Int) - 3 * Int.tdiv 10 3| < 3 :=
  ⟨(C20_interp_no_overshoot 3 10 (-7) [] (by decide)).1,
   (C20_interp_no_overshoot 3 10 (-7) [] (by decide)).2.2.2.2.1⟩

/-! ## Shape of the trace of a frame -/

theorem process_frame_trace (g : Globals) (dev : InputDev) (b0 b1 b2 b3 b4 : Nat) :
    ∃ (k : Nat) (sx sy : Int), 1 ≤ k ∧
      process_frame g dev [b0, b1, b2, b3, b4] =
        dev ++ (((if b0.testBit 0 then pulse KeyCode.BTN_LEFT else []) ++
          (if b0.testBit 1 then pulse KeyCode.BTN_RIGHT else [])) ++
          (List.replicate k (rel_step sx sy)).flatten) := by
  simp only [process_frame, handle_movement, List.getD_cons_zero, List.getD_cons_succ]
  by_cases hn : 0 < g.interp_steps
  · refine ⟨g.interp_steps.toNat,
      Int.tdiv (scale g.speed_mult (decode_s16 b1 b2)) g.interp_steps,
      Int.tdiv (scale g.speed_mult (decode_s16 b3 b4)) g.interp_steps, by omega, ?_⟩
    rw [emit_motion_pos _ _ _ _ hn, handle_buttons_eq]
    simp only [List.append_assoc]
  · refine ⟨1, scale g.speed_mult (decode_s16 b1 b2), scale g.speed_mult (decode_s16 b3 b4),
      Nat.le_refl 1, ?_⟩
    rw [emit_motion_nonpos _ _ _ _ (by omega), handle_buttons_eq]
    simp [rel_step, List.append_assoc]

theorem no_key_after_rel (B M : List InputEvent)
    (hB : ∀ c v, InputEvent.rel c v ∉ B) (hM : ∀ c v, InputEvent.key c v ∉ M)
    (pre post : List InputEvent) (c : RelCode) (v : Int)
    (h : B ++ M = pre ++ InputEvent.rel c v :: post) :
    ∀ c' v', InputEvent.key c' v' ∉ post := by
  intro c' v' hk
  rcases List.append_eq_append_iff.mp h with ⟨a', _, hM'⟩ | ⟨c'', hB', hc⟩
  · apply hM c' v'
    rw [hM']
    exact List.mem_append_right _ (List.mem_cons_of_mem _ hk)
  · cases c'' with
    | nil =>
      simp only [List.nil_append] at hc
      apply hM c' v'
      rw [← hc]
      exact List.mem_cons_of_mem _ hk
    | cons x xs =>
      simp only [List.cons_append, List.cons.injEq] at hc
      apply hB c v
      rw [hB', ← hc.1]
      exact List.mem_append_right _ (List.mem_cons_self _ _)

/-- C18: for every full frame `[b0,b1,b2,b3,b4]` and every configuration, what frame
processing reports is the left pulse (if bit 0), then the right pulse (if bit 1), then `k >= 1`
relative-motion events, each a REL_X report, a REL_Y report and a sync; no key event comes
after a relative-motion report, and the trace is non-empty and ends with a sync. -/
theorem C18_frame_trace_shape (g : Globals) (dev : InputDev) (b0 b1 b2 b3 b4 : Nat) :
    (∃ (k : Nat) (sx sy : Int), 1 ≤ k ∧
      process_frame g dev [b0, b1, b2, b3, b4] =
        dev ++ (((if b0.testBit 0 then
                    [InputEvent.key KeyCode.BTN_LEFT 1, InputEvent.sync,
                     InputEvent.key KeyCode.BTN_LEFT 0, InputEvent.sync]
                  else []) ++
                 (if b0.testBit 1 then
                    [InputEvent.key KeyCode.BTN_RIGHT 1, InputEvent.sync,
                     InputEvent.key KeyCode.BTN_RIGHT 0, InputEvent.sync]
                  else [])) ++
          (List.replicate k
            [InputEvent.rel RelCode.REL_X sx, InputEvent.rel RelCode.REL_Y sy,
             InputEvent.sync]).flatten)) ∧
    (∀ (pre post : List InputEvent) (c : RelCode) (v : Int),
      (process_frame g dev [b0, b1, b2, b3, b4]).drop dev.length =
        pre ++ InputEvent.rel c v :: post →
      ∀ c' v', InputEvent.key c' v' ∉ post) ∧
    (process_frame g dev [b0, b1, b2, b3, b4]).drop dev.length ≠ [] ∧
    ((process_frame g dev [b0, b1, b2, b3, b4]).drop dev.length).getLast? =
      some InputEvent.sync := by
  obtain ⟨k, sx, sy, hk, htrace⟩ := process_frame_trace g dev b0 b1 b2 b3 b4
  have hdrop := congrArg (List.drop dev.length) htrace
  rw [List.drop_left] at hdrop
  obtain ⟨j, rfl⟩ : ∃ j, k = j + 1 := ⟨k - 1, by omega⟩
  have hlast : (List.replicate (j + 1) (rel_step sx sy)).flatten =
      ((List.replicate j (rel_step sx sy)).flatten ++
        [InputEvent.rel RelCode.REL_X sx, InputEvent.rel RelCode.REL_Y sy]) ++
        [InputEvent.sync] := by
    rw [List.replicate_succ']
    simp [rel_step]
  refine ⟨⟨j + 1, sx, sy, hk, by simpa [pulse, rel_step] using htrace⟩, ?_, ?_, ?_⟩
  · intro pre post c v h
    rw [hdrop] at h
    refine no_key_after_rel _ _ ?_ ?_ pre post c v h
    · intro c0 v0
      cases b0.testBit 0 <;> cases b0.testBit 1 <;> simp [pulse]
    · intro c0 v0 hmem
      rw [List.mem_flatten] at hmem
      obtain ⟨l, hl, hin⟩ := hmem
      rw [(List.mem_replicate.mp hl).2] at hin
      simp [rel_step] at hin
  · rw [hdrop, hlast]
    simp
  · rw [hdrop, hlast, ← List.append_assoc, List.getLast?_concat]

end PhoneMouse
